import Mathlib

/-!
Verification of the quantum-SPLD node's core subsystems against their
specification: the ML-DSA crypto layer (CGO and fallback builds), the
post-quantum fork schedule, the ML-DSA verification precompile, the GPU
batch processor, the x402 payment engine and the hybrid scheduler's
adaptive batch sizing.  Go code is shallowly embedded: byte slices become
`List Nat`, machine integers become `Nat`/`Int` with explicit wrapping,
fallible functions return `Option`/`Except`, and external cryptographic
primitives (keccak, ECDSA recovery, liboqs verification, RLP decoding)
are parameters of the embedded functions.
-/

/-- Error values of the `mldsa` package (`errors.New` sentinels plus the
ad-hoc "empty message" error). -/
inductive MLDSAErr where
  | invalidAlgorithm
  | invalidSignature
  | invalidPublicKey
  | invalidLength
  | verificationFailed
  | libOQSNotAvailable
  | emptyMessage
  deriving DecidableEq, Repr

/-- Entry of the `MLDSAParams` tables (public key size, signature size,
security level). -/
structure MLDSAParamSet where
  publicKeySize : Nat
  signatureSize : Nat
  securityLevel : Nat
  deriving DecidableEq, Repr

namespace MLDSACgo

/-! Embedding of the CGO build of the `mldsa` package: the shared constants
and `MLDSAParams` table of `mldsa_common.go` (build tag `cgo && liboqs`)
together with `GetMLDSALengths` of `mldsa_cgo.go`.  The C runtime query
`get_mldsa_lengths` is a parameter returning `none` on failure. -/

def MLDSA44 : String := "ML-DSA-44"

def MLDSA65 : String := "ML-DSA-65"

def MLDSA87 : String := "ML-DSA-87"

/-- The `MLDSAParams` map of `mldsa_common.go` (CGO build). -/
def MLDSAParams (alg : String) : Option MLDSAParamSet :=
  if alg = MLDSA44 then some ⟨1312, 2420, 2⟩
  else if alg = MLDSA65 then some ⟨1952, 3293, 3⟩
  else if alg = MLDSA87 then some ⟨2592, 4595, 5⟩
  else none

/-- Maps Splendor ML-DSA identifiers to liboqs algorithm names. -/
def mapToOQSName (alg : String) : String :=
  if alg = MLDSA44 then "Dilithium2"
  else if alg = MLDSA65 then "Dilithium3"
  else if alg = MLDSA87 then "Dilithium5"
  else alg

/-- The CGO `GetMLDSALengths`: validate the algorithm, query the runtime
(`runtimeLengths`, returning `none` when `get_mldsa_lengths` fails) and
fall back to the static `MLDSAParams` table on failure. -/
def GetMLDSALengths (runtimeLengths : String → Option (Nat × Nat))
    (algorithm : String) : Except MLDSAErr (Nat × Nat) :=
  match MLDSAParams algorithm with
  | none => .error .invalidAlgorithm
  | some p =>
    match runtimeLengths (mapToOQSName algorithm) with
    | some (sigLen, pkLen) => .ok (sigLen, pkLen)
    | none => .ok (p.signatureSize, p.publicKeySize)

end MLDSACgo

namespace MLDSAFallback

/-! Embedding of the fallback build of the `mldsa` package (`mldsa.go`,
build tag `!cgo || no_liboqs`), which defines its own copies of the
constants and the parameter table. -/

def MLDSA44 : String := "ML-DSA-44"

def MLDSA65 : String := "ML-DSA-65"

def MLDSA87 : String := "ML-DSA-87"

/-- The `MLDSAParams` map of the fallback `mldsa.go`. -/
def MLDSAParams (alg : String) : Option MLDSAParamSet :=
  if alg = MLDSA44 then some ⟨1312, 2420, 2⟩
  else if alg = MLDSA65 then some ⟨1952, 3309, 3⟩
  else if alg = MLDSA87 then some ⟨2592, 4627, 5⟩
  else none

/-- Fallback `VerifySignature`: structural validation in source order,
then `ErrLibOQSNotAvailable` since no real verification is possible. -/
def VerifySignature (algorithm : String)
    (message signature publicKey : List Nat) : Option MLDSAErr :=
  if message = [] then some .emptyMessage
  else if signature = [] then some .invalidSignature
  else if publicKey = [] then some .invalidPublicKey
  else
    match MLDSAParams algorithm with
    | none => some .invalidAlgorithm
    | some p =>
      if signature.length ≠ p.signatureSize then some .invalidLength
      else if publicKey.length ≠ p.publicKeySize then some .invalidLength
      else some .libOQSNotAvailable

/-- Fallback `GetMLDSALengths`: always answers from the static table. -/
def GetMLDSALengths (algorithm : String) : Except MLDSAErr (Nat × Nat) :=
  match MLDSAParams algorithm with
  | none => .error .invalidAlgorithm
  | some p => .ok (p.signatureSize, p.publicKeySize)

/-- Fallback `IsMLDSASupported`. -/
def IsMLDSASupported (_algorithm : String) : Bool := false

/-- Fallback `GenerateKeyPair`. -/
def GenerateKeyPair (_algorithm : String) :
    Except MLDSAErr (List Nat × List Nat) := .error .libOQSNotAvailable

/-- Fallback `SignMessage`. -/
def SignMessage (_algorithm : String) (_message _secretKey : List Nat) :
    Except MLDSAErr (List Nat) := .error .libOQSNotAvailable

/-- Fallback `BatchVerifySignatures`. -/
def BatchVerifySignatures (_algorithm : String)
    (_messages _signatures _publicKeys : List (List Nat)) :
    Except MLDSAErr (List Bool) := .error .libOQSNotAvailable

end MLDSAFallback

/-- C2 counterexample: with the runtime size query failing, the CGO
`GetMLDSALengths` for ML-DSA-65 returns the static-table pair
(3293, 1952), not the (3309, 1952) the claim states. -/
theorem cgo_lengths_fallback_c2_counterexample :
    MLDSACgo.GetMLDSALengths (fun _ => none) "ML-DSA-65" =
      Except.ok (3293, 1952) ∧
    MLDSACgo.GetMLDSALengths (fun _ => none) "ML-DSA-65" ≠
      Except.ok (3309, 1952) := by
  refine ⟨rfl, fun h => ?_⟩
  have h2 := Except.ok.inj h
  simp at h2

/-- C2 (amended): when the runtime library size query fails for every
variant, the CGO `GetMLDSALengths` returns the static `MLDSAParams`
values: 2420/1312 for ML-DSA-44, 3293/1952 for ML-DSA-65 and 4595/2592
for ML-DSA-87. -/
theorem cgo_lengths_fallback_static
    (q : String → Option (Nat × Nat))
    (h44 : q "Dilithium2" = none) (h65 : q "Dilithium3" = none)
    (h87 : q "Dilithium5" = none) :
    MLDSACgo.GetMLDSALengths q "ML-DSA-44" = Except.ok (2420, 1312) ∧
    MLDSACgo.GetMLDSALengths q "ML-DSA-65" = Except.ok (3293, 1952) ∧
    MLDSACgo.GetMLDSALengths q "ML-DSA-87" = Except.ok (4595, 2592) := by
  refine ⟨?_, ?_, ?_⟩ <;>
    simp [MLDSACgo.GetMLDSALengths, MLDSACgo.MLDSAParams,
      MLDSACgo.mapToOQSName, MLDSACgo.MLDSA44, MLDSACgo.MLDSA65,
      MLDSACgo.MLDSA87, h44, h65, h87]

/-- C2 witness: the amended statement evaluated at the always-failing
runtime query. -/
theorem cgo_lengths_fallback_static_witness :
    MLDSACgo.GetMLDSALengths (fun _ => none) "ML-DSA-44" =
      Except.ok (2420, 1312) ∧
    MLDSACgo.GetMLDSALengths (fun _ => none) "ML-DSA-65" =
      Except.ok (3293, 1952) ∧
    MLDSACgo.GetMLDSALengths (fun _ => none) "ML-DSA-87" =
      Except.ok (4595, 2592) :=
  cgo_lengths_fallback_static (fun _ => none) rfl rfl rfl

/-- C4 counterexample: in the fallback build, `VerifySignature` on a
structurally invalid input (1-byte signature for ML-DSA-44) returns
`ErrInvalidLength`, not `ErrLibOQSNotAvailable`, so not every input maps
to `LibraryUnavailable`. -/
theorem fallback_verify_c4_counterexample :
    MLDSAFallback.VerifySignature "ML-DSA-44" [1] [1] [1] =
      some MLDSAErr.invalidLength ∧
    some MLDSAErr.invalidLength ≠ some MLDSAErr.libOQSNotAvailable := by
  constructor
  · rfl
  · decide

/-- C4 (amended): in the fallback build, sign, generate and batch-verify
return `LibraryUnavailable` unconditionally; verify returns
`LibraryUnavailable` exactly on structurally valid input (non-empty
message, known algorithm, signature and key of the static sizes) and a
validation error otherwise; `GetMLDSALengths` returns the fallback static
table (2420/1312, 3309/1952, 4627/2592) without error; and ML-DSA support
is reported as absent. -/
theorem fallback_operations_library_unavailable :
    (∀ alg m sk, MLDSAFallback.SignMessage alg m sk =
      .error .libOQSNotAvailable) ∧
    (∀ alg, MLDSAFallback.GenerateKeyPair alg =
      .error .libOQSNotAvailable) ∧
    (∀ alg ms ss ks, MLDSAFallback.BatchVerifySignatures alg ms ss ks =
      .error .libOQSNotAvailable) ∧
    (∀ alg msg sig pk p, MLDSAFallback.MLDSAParams alg = some p →
      msg ≠ [] → sig.length = p.signatureSize →
      pk.length = p.publicKeySize →
      MLDSAFallback.VerifySignature alg msg sig pk =
        some .libOQSNotAvailable) ∧
    (MLDSAFallback.GetMLDSALengths "ML-DSA-44" = Except.ok (2420, 1312) ∧
     MLDSAFallback.GetMLDSALengths "ML-DSA-65" = Except.ok (3309, 1952) ∧
     MLDSAFallback.GetMLDSALengths "ML-DSA-87" = Except.ok (4627, 2592)) ∧
    (∀ alg, MLDSAFallback.IsMLDSASupported alg = false) := by
  refine ⟨fun _ _ _ => rfl, fun _ => rfl, fun _ _ _ _ => rfl,
    ?_, ⟨rfl, rfl, rfl⟩, fun _ => rfl⟩
  intro alg msg sig pk p hp hmsg hsig hpk
  have hsig0 : sig ≠ [] := by
    intro h
    have hpos : 0 < p.signatureSize := by
      have h44 : (2420 : Nat) > 0 := by norm_num
      unfold MLDSAFallback.MLDSAParams at hp
      split at hp
      · cases hp; norm_num
      · split at hp
        · cases hp; norm_num
        · split at hp
          · cases hp; norm_num
          · cases hp
    rw [h] at hsig
    simp at hsig
    omega
  have hpk0 : pk ≠ [] := by
    intro h
    have hpos : 0 < p.publicKeySize := by
      unfold MLDSAFallback.MLDSAParams at hp
      split at hp
      · cases hp; norm_num
      · split at hp
        · cases hp; norm_num
        · split at hp
          · cases hp; norm_num
          · cases hp
    rw [h] at hpk
    simp at hpk
    omega
  unfold MLDSAFallback.VerifySignature
  rw [if_neg hmsg, if_neg hsig0, if_neg hpk0, hp]
  simp [hsig, hpk]

/-- C4 witness: a structurally valid fallback verification and an
unconditional fallback signing, both reporting `LibraryUnavailable`. -/
theorem fallback_operations_library_unavailable_witness :
    MLDSAFallback.VerifySignature "ML-DSA-44" [1]
      (List.replicate 2420 0) (List.replicate 1312 0) =
      some MLDSAErr.libOQSNotAvailable ∧
    MLDSAFallback.SignMessage "ML-DSA-44" [1] [2] =
      .error .libOQSNotAvailable :=
  ⟨fallback_operations_library_unavailable.2.2.2.1 "ML-DSA-44" [1]
      (List.replicate 2420 0) (List.replicate 1312 0) ⟨1312, 2420, 2⟩
      rfl (by decide) (List.length_replicate 2420 0)
      (List.length_replicate 1312 0),
    fallback_operations_library_unavailable.1 "ML-DSA-44" [1] [2]⟩

namespace PQParams

/-! Embedding of the post-quantum fork helpers of `params` (pq_config.go):
`PostQuantumConfig`, `IsPQTFork`, `IsPQTTransition`, `IsPQTEnforced` and
`GetMLDSASizes`.  Go's `*big.Int` becomes `Option Int` (`none` = nil) and
`uint64` becomes a `Nat` below `2 ^ 64`; the conversion
`big.NewInt(int64(transitionBlocks))` is modelled with two's-complement
wrapping. -/

/-- The `PQTTransitionBlocks` default (7200 blocks, about 24 hours). -/
def PQTTransitionBlocks : Nat := 7200

/-- Go's `int64(u)` reinterpretation of a `uint64` value. -/
def toInt64 (u : Nat) : Int :=
  let r : Nat := u % 2 ^ 64
  if r < 2 ^ 63 then (r : Int) else (r : Int) - 2 ^ 64

/-- The `PostQuantumConfig` fields used by the fork helpers. -/
structure PostQuantumConfig where
  pqtBlock : Option Int
  transitionBlocks : Nat
  defaultMLDSAAlgorithm : Nat
  deriving DecidableEq, Repr

/-- The `ChainConfig` field used by the fork helpers. -/
structure ChainConfig where
  postQuantum : Option PostQuantumConfig
  deriving DecidableEq, Repr

/-- Modelled from the spec: `isForked` lives in `params/config.go`, which
is not part of the sources; per the spec a block-numbered fork is active
at every block number at or after its activation block, and inactive when
unset. -/
def isForked (s : Option Int) (head : Int) : Bool :=
  match s with
  | none => false
  | some sv => decide (sv ≤ head)

/-- `IsPQTFork`: whether `num` is at or after the PQT fork block. -/
def IsPQTFork (c : ChainConfig) (num : Int) : Bool :=
  match c.postQuantum with
  | none => false
  | some pq => isForked pq.pqtBlock num

/-- Effective transition length: the configured value, or the
`PQTTransitionBlocks` default when configured as zero. -/
def effectiveTransitionBlocks (pq : PostQuantumConfig) : Nat :=
  if pq.transitionBlocks = 0 then PQTTransitionBlocks else pq.transitionBlocks

/-- `IsPQTTransition`: whether `num` is in the dual-signing window. -/
def IsPQTTransition (c : ChainConfig) (num : Int) : Bool :=
  if IsPQTFork c num then
    match c.postQuantum with
    | none => false
    | some pq =>
      match pq.pqtBlock with
      | none => false
      | some fork =>
        decide (num < fork + toInt64 (effectiveTransitionBlocks pq))
  else false

/-- `IsPQTEnforced`: whether `num` is past the transition window. -/
def IsPQTEnforced (c : ChainConfig) (num : Int) : Bool :=
  if IsPQTFork c num then
    match c.postQuantum with
    | none => false
    | some pq =>
      match pq.pqtBlock with
      | none => false
      | some fork =>
        decide (fork + toInt64 (effectiveTransitionBlocks pq) ≤ num)
  else false

/-- `GetMLDSASizes` of pq_config.go: static signature/public-key sizes per
variant, defaulting to ML-DSA-65. -/
def GetMLDSASizes (algorithm : String) : Nat × Nat :=
  if algorithm = "ML-DSA-44" then (2420, 1312)
  else if algorithm = "ML-DSA-65" then (3309, 1952)
  else if algorithm = "ML-DSA-87" then (4627, 2592)
  else (3309, 1952)

end PQParams

/-- C5 counterexample: with `pqtBlock = 0` and `transitionBlocks = 2^63`,
Go's `int64` conversion wraps to `-2^63`, so block 0 is reported as
enforced rather than in transition, although `pqtBlock ≤ 0 <
pqtBlock + transitionBlocks` holds arithmetically. -/
theorem pqt_schedule_c5_counterexample :
    PQParams.IsPQTTransition ⟨some ⟨some 0, 2 ^ 63, 65⟩⟩ 0 = false ∧
    PQParams.IsPQTEnforced ⟨some ⟨some 0, 2 ^ 63, 65⟩⟩ 0 = true ∧
    (0 : Int) ≤ 0 ∧ (0 : Int) < 0 + 2 ^ 63 := by decide

/-- C5 (amended): for every configuration whose effective transition
length (the configured value, or 7200 if configured as zero) is below
`2 ^ 63`, a block `n` is in the dual-signing transition iff
`pqtBlock ≤ n < pqtBlock + transitionBlocks`, is enforced iff
`n ≥ pqtBlock + transitionBlocks`, and the two states are mutually
exclusive and together cover every block at or after `pqtBlock`. -/
theorem pqt_schedule_characterisation (c : PQParams.ChainConfig)
    (pq : PQParams.PostQuantumConfig) (fork : Int) (n : Int)
    (hpq : c.postQuantum = some pq) (hfork : pq.pqtBlock = some fork)
    (hsmall : PQParams.effectiveTransitionBlocks pq < 2 ^ 63) :
    (PQParams.IsPQTTransition c n = true ↔
      fork ≤ n ∧ n < fork + PQParams.effectiveTransitionBlocks pq) ∧
    (PQParams.IsPQTEnforced c n = true ↔
      fork + PQParams.effectiveTransitionBlocks pq ≤ n) ∧
    ¬(PQParams.IsPQTTransition c n = true ∧
      PQParams.IsPQTEnforced c n = true) ∧
    (fork ≤ n → PQParams.IsPQTTransition c n = true ∨
      PQParams.IsPQTEnforced c n = true) := by
  have ht : PQParams.toInt64 (PQParams.effectiveTransitionBlocks pq) =
      (PQParams.effectiveTransitionBlocks pq : Int) := by
    unfold PQParams.toInt64
    have h1 : PQParams.effectiveTransitionBlocks pq % 2 ^ 64 =
        PQParams.effectiveTransitionBlocks pq :=
      Nat.mod_eq_of_lt (lt_trans hsmall (by norm_num))
    simp only [h1]
    rw [if_pos]
    exact_mod_cast hsmall
  refine ⟨?_, ?_, ?_, ?_⟩ <;>
    simp [PQParams.IsPQTTransition, PQParams.IsPQTEnforced,
      PQParams.IsPQTFork, PQParams.isForked, hpq, hfork, ht] <;>
    omega

/-- C5 witness: the characterisation evaluated at a configuration with
`pqtBlock = 100`, default transition length, and block 100. -/
theorem pqt_schedule_characterisation_witness :
    (PQParams.IsPQTTransition ⟨some ⟨some 100, 0, 65⟩⟩ 100 = true ↔
      (100 : Int) ≤ 100 ∧ (100 : Int) <
        100 + PQParams.effectiveTransitionBlocks ⟨some 100, 0, 65⟩) ∧
    (PQParams.IsPQTEnforced ⟨some ⟨some 100, 0, 65⟩⟩ 100 = true ↔
      (100 : Int) + PQParams.effectiveTransitionBlocks ⟨some 100, 0, 65⟩ ≤
        100) ∧
    ¬(PQParams.IsPQTTransition ⟨some ⟨some 100, 0, 65⟩⟩ 100 = true ∧
      PQParams.IsPQTEnforced ⟨some ⟨some 100, 0, 65⟩⟩ 100 = true) ∧
    ((100 : Int) ≤ 100 →
      PQParams.IsPQTTransition ⟨some ⟨some 100, 0, 65⟩⟩ 100 = true ∨
      PQParams.IsPQTEnforced ⟨some ⟨some 100, 0, 65⟩⟩ 100 = true) :=
  pqt_schedule_characterisation ⟨some ⟨some 100, 0, 65⟩⟩
    ⟨some 100, 0, 65⟩ 100 100 rfl rfl (by norm_num [PQParams.effectiveTransitionBlocks, PQParams.PQTTransitionBlocks])

namespace PQPrecompile

/-! Embedding of the `mldsaVerify` precompile's `Run` (vm package).  The
underlying `mldsa.VerifySignature` is a parameter `verify` returning
`none` on success and `some e` on any failure; `uint32` arithmetic is
modelled with explicit `% 2 ^ 32`. -/

/-- Big-endian `uint32` of four bytes (`binary.BigEndian.Uint32`). -/
def be32 (b0 b1 b2 b3 : Nat) : Nat :=
  b0 * 2 ^ 24 + b1 * 2 ^ 16 + b2 * 2 ^ 8 + b3

/-- Byte `i` of the input (bytes out of range read as 0). -/
def byteAt (l : List Nat) (i : Nat) : Nat := l.getD i 0

/-- The algorithm selected by the precompile's first input byte. -/
def algorithmOf (id : Nat) : Option String :=
  if id = 0x44 then some "ML-DSA-44"
  else if id = 0x65 then some "ML-DSA-65"
  else if id = 0x87 then some "ML-DSA-87"
  else none

/-- Declared message length (input bytes 1-4, big-endian). -/
def msgLenOf (input : List Nat) : Nat :=
  be32 (byteAt input 1) (byteAt input 2) (byteAt input 3) (byteAt input 4)

/-- Declared signature length (input bytes 5-8, big-endian). -/
def sigLenOf (input : List Nat) : Nat :=
  be32 (byteAt input 5) (byteAt input 6) (byteAt input 7) (byteAt input 8)

/-- Declared public-key length (input bytes 9-12, big-endian). -/
def pkLenOf (input : List Nat) : Nat :=
  be32 (byteAt input 9) (byteAt input 10) (byteAt input 11)
    (byteAt input 12)

/-- The `mldsaVerify.Run` method: parse the header, check the total
length in `uint32` arithmetic, extract the three components and map the
verification outcome to a 32-byte word (zeros on failure, last byte 1 on
success); malformed input yields a Go error. -/
def mldsaVerifyRun
    (verify : String → List Nat → List Nat → List Nat → Option MLDSAErr)
    (input : List Nat) : Except String (List Nat) :=
  if input.length < 13 then .error "input too short"
  else
    match algorithmOf (byteAt input 0) with
    | none => .error "unsupported ML-DSA algorithm"
    | some algorithm =>
      if input.length % 2 ^ 32 ≠
          (13 + msgLenOf input + sigLenOf input + pkLenOf input) %
            2 ^ 32 then
        .error "input length mismatch"
      else
        match verify algorithm ((input.drop 13).take (msgLenOf input))
            ((input.drop (13 + msgLenOf input)).take (sigLenOf input))
            ((input.drop (13 + msgLenOf input + sigLenOf input)).take
              (pkLenOf input)) with
        | some _ => .ok (List.replicate 32 0)
        | none => .ok (List.replicate 31 0 ++ [1])

end PQPrecompile

/-- C10: for input that parses correctly (known algorithm id and length
headers consistent with the actual input length), `mldsaVerify.Run` never
returns a Go error: it returns 32 zero bytes with no error on any
verification failure and 32 bytes ending in 1 on success; and whenever it
does return a Go error, the input was too short, had an unknown algorithm
id, or failed the total-length check. -/
theorem mldsa_precompile_run_result_shape
    (verify : String → List Nat → List Nat → List Nat → Option MLDSAErr)
    (input : List Nat) (algorithm : String)
    (halg : PQPrecompile.algorithmOf (PQPrecompile.byteAt input 0) = some algorithm)
    (hlen : input.length = 13 + PQPrecompile.msgLenOf input +
      PQPrecompile.sigLenOf input + PQPrecompile.pkLenOf input) :
    (∀ e, verify algorithm
        ((input.drop 13).take (PQPrecompile.msgLenOf input))
        ((input.drop (13 + PQPrecompile.msgLenOf input)).take
          (PQPrecompile.sigLenOf input))
        ((input.drop (13 + PQPrecompile.msgLenOf input +
          PQPrecompile.sigLenOf input)).take
          (PQPrecompile.pkLenOf input)) = some e →
      PQPrecompile.mldsaVerifyRun verify input =
        .ok (List.replicate 32 0)) ∧
    (verify algorithm
        ((input.drop 13).take (PQPrecompile.msgLenOf input))
        ((input.drop (13 + PQPrecompile.msgLenOf input)).take
          (PQPrecompile.sigLenOf input))
        ((input.drop (13 + PQPrecompile.msgLenOf input +
          PQPrecompile.sigLenOf input)).take
          (PQPrecompile.pkLenOf input)) = none →
      PQPrecompile.mldsaVerifyRun verify input =
        .ok (List.replicate 31 0 ++ [1])) ∧
    (∀ s, PQPrecompile.mldsaVerifyRun verify input ≠ .error s) ∧
    (∀ (input2 : List Nat) (s : String),
      PQPrecompile.mldsaVerifyRun verify input2 = .error s →
      input2.length < 13 ∨
      PQPrecompile.algorithmOf (PQPrecompile.byteAt input2 0) = none ∨
      input2.length % 2 ^ 32 ≠
        (13 + PQPrecompile.msgLenOf input2 + PQPrecompile.sigLenOf input2 +
          PQPrecompile.pkLenOf input2) % 2 ^ 32) := by
  have h13 : ¬ input.length < 13 := by omega
  have hmod : input.length % 2 ^ 32 =
      (13 + PQPrecompile.msgLenOf input + PQPrecompile.sigLenOf input +
        PQPrecompile.pkLenOf input) % 2 ^ 32 := by
    rw [hlen]
  refine ⟨?_, ?_, ?_, ?_⟩
  · intro e he
    simp [PQPrecompile.mldsaVerifyRun, h13, halg, he]
    omega
  · intro he
    simp [PQPrecompile.mldsaVerifyRun, h13, halg, he]
    omega
  · intro s hcontra
    cases hv : verify algorithm
        ((input.drop 13).take (PQPrecompile.msgLenOf input))
        ((input.drop (13 + PQPrecompile.msgLenOf input)).take
          (PQPrecompile.sigLenOf input))
        ((input.drop (13 + PQPrecompile.msgLenOf input +
          PQPrecompile.sigLenOf input)).take
          (PQPrecompile.pkLenOf input)) with
    | none =>
        simp [PQPrecompile.mldsaVerifyRun, h13, halg, hv] at hcontra
        split at hcontra
        · simp at hcontra
        · omega
    | some e =>
        simp [PQPrecompile.mldsaVerifyRun, h13, halg, hv] at hcontra
        split at hcontra
        · simp at hcontra
        · omega
  · intro input2 s h
    by_cases h1 : input2.length < 13
    · exact Or.inl h1
    · cases halg2 : PQPrecompile.algorithmOf (PQPrecompile.byteAt input2 0) with
      | none => exact Or.inr (Or.inl rfl)
      | some alg2 =>
        by_cases h2 : input2.length % 2 ^ 32 ≠
            (13 + PQPrecompile.msgLenOf input2 +
              PQPrecompile.sigLenOf input2 +
              PQPrecompile.pkLenOf input2) % 2 ^ 32
        · exact Or.inr (Or.inr h2)
        · exfalso
          have heq2 := not_not.mp h2
          cases hv : verify alg2
              ((input2.drop 13).take (PQPrecompile.msgLenOf input2))
              ((input2.drop (13 + PQPrecompile.msgLenOf input2)).take
                (PQPrecompile.sigLenOf input2))
              ((input2.drop (13 + PQPrecompile.msgLenOf input2 +
                PQPrecompile.sigLenOf input2)).take
                (PQPrecompile.pkLenOf input2)) with
          | none =>
              simp [PQPrecompile.mldsaVerifyRun, h1, halg2, hv] at h
              split at h
              · simp at h
              · omega
          | some e =>
              simp [PQPrecompile.mldsaVerifyRun, h1, halg2, hv] at h
              split at h
              · simp at h
              · omega

/-- C10 witness: a well-formed 16-byte input for ML-DSA-44 with an
always-succeeding verifier yields the success word. -/
theorem mldsa_precompile_run_result_shape_witness :
    PQPrecompile.mldsaVerifyRun (fun _ _ _ _ => none)
      [0x44, 0, 0, 0, 1, 0, 0, 0, 1, 0, 0, 0, 1, 9, 8, 7] =
      .ok (List.replicate 31 0 ++ [1]) :=
  (mldsa_precompile_run_result_shape (fun _ _ _ _ => none)
    [0x44, 0, 0, 0, 1, 0, 0, 0, 1, 0, 0, 0, 1, 9, 8, 7] "ML-DSA-44"
    (by decide) (by decide)).2.1 rfl

namespace GPU

/-! Embedding of the `gpu` package (GPU build): the batch-submission
functions `ProcessHashesBatch` / `ProcessSignaturesBatch` /
`ProcessTransactionsBatch` of gpu_processor.go, each guarding a bounded
queue of capacity 100 created by `NewGPUProcessor`, and the CPU hash
path `processHashesCPU` reached by `hashWorker` when no GPU is
available.  A submission's effects are its Go return value (`none` for
nil), the queue after the call, and the list of callback invocations it
performed; a Go nil slice passed to a callback is the empty list. -/

/-- The `GPUType` tags. -/
inductive GPUType where
  | GPUTypeNone
  | GPUTypeCUDA
  | GPUTypeOpenCL
  deriving DecidableEq, Repr

/-- Capacity of the hash/signature/transaction channels created in
`NewGPUProcessor` (`make(chan *..., 100)`). -/
def queueCapacity : Nat := 100

/-- A queued hash batch. -/
structure HashBatch where
  hashes : List (List Nat)
  deriving DecidableEq, Repr

/-- A queued signature batch. -/
structure SigBatch where
  signatures : List (List Nat)
  messages : List (List Nat)
  publicKeys : List (List Nat)
  deriving DecidableEq, Repr

/-- A queued transaction batch over an abstract transaction type. -/
structure TxBatch (Tx : Type) where
  transactions : List Tx

/-- Outcome of one submission call: the Go return value, the queue after
the call, and the callback invocations performed during the call. -/
structure SubmitResult (β ρ : Type) where
  ret : Option String
  queue : List β
  calls : List (ρ × Option String)

/-- `ProcessHashesBatch`: empty batches invoke the callback immediately;
otherwise the batch is enqueued when the queue has room and the call
fails with the queue-full error when it does not. -/
def ProcessHashesBatch (queue : List HashBatch)
    (hashes : List (List Nat)) : SubmitResult HashBatch (List (List Nat)) :=
  if hashes.length = 0 then ⟨none, queue, [([], none)]⟩
  else if queue.length < queueCapacity then ⟨none, queue ++ [⟨hashes⟩], []⟩
  else ⟨some "hash processing queue full", queue, []⟩

/-- `ProcessSignaturesBatch`: same queue discipline as the hash path. -/
def ProcessSignaturesBatch (queue : List SigBatch)
    (signatures messages publicKeys : List (List Nat)) :
    SubmitResult SigBatch (List Bool) :=
  if signatures.length = 0 then ⟨none, queue, [([], none)]⟩
  else if queue.length < queueCapacity then
    ⟨none, queue ++ [⟨signatures, messages, publicKeys⟩], []⟩
  else ⟨some "signature processing queue full", queue, []⟩

/-- `ProcessTransactionsBatch`: same queue discipline as the hash path
(per-item results are irrelevant to the submission, so they are `Unit`). -/
def ProcessTransactionsBatch {Tx : Type} (queue : List (TxBatch Tx))
    (txs : List Tx) : SubmitResult (TxBatch Tx) (List Unit) :=
  if txs.length = 0 then ⟨none, queue, [([], none)]⟩
  else if queue.length < queueCapacity then ⟨none, queue ++ [⟨txs⟩], []⟩
  else ⟨some "transaction processing queue full", queue, []⟩

/-- `processHashesCPU`: keccak-256 of each item on the CPU, then one
callback invocation with the results and nil error.  The `keccak`
primitive is a parameter. -/
def processHashesCPU (keccak : List Nat → List Nat) (b : HashBatch) :
    List (List Nat) × List (List (List Nat) × Option String) :=
  ((b.hashes.map keccak), [(b.hashes.map keccak, none)])

/-- `hashWorker` body for one dequeued batch: dispatch to the CPU path
when no GPU is available, and to the accelerator path otherwise (the
latter is a parameter). -/
def hashWorkerProcess (gpuType : GPUType) (keccak : List Nat → List Nat)
    (gpuProcess :
      HashBatch → List (List Nat) × List (List (List Nat) × Option String))
    (b : HashBatch) :
    List (List Nat) × List (List (List Nat) × Option String) :=
  match gpuType with
  | .GPUTypeNone => processHashesCPU keccak b
  | _ => gpuProcess b

end GPU

/-- C7: a non-empty batch submitted to any of the three submission
functions while its queue already holds 100 pending batches is rejected
with the queue-full error, is not enqueued, and triggers no callback. -/
theorem gpu_queue_full_rejects :
    (∀ (q : List GPU.HashBatch) (hs : List (List Nat)), hs ≠ [] →
      q.length = 100 →
      GPU.ProcessHashesBatch q hs =
        ⟨some "hash processing queue full", q, []⟩) ∧
    (∀ (q : List GPU.SigBatch) (ss ms ks : List (List Nat)), ss ≠ [] →
      q.length = 100 →
      GPU.ProcessSignaturesBatch q ss ms ks =
        ⟨some "signature processing queue full", q, []⟩) ∧
    (∀ (Tx : Type) (q : List (GPU.TxBatch Tx)) (ts : List Tx), ts ≠ [] →
      q.length = 100 →
      GPU.ProcessTransactionsBatch q ts =
        ⟨some "transaction processing queue full", q, []⟩) := by
  refine ⟨?_, ?_, ?_⟩
  · intro q hs hne hq
    simp [GPU.ProcessHashesBatch, List.length_eq_zero, hne, hq, GPU.queueCapacity]
  · intro q ss ms ks hne hq
    simp [GPU.ProcessSignaturesBatch, List.length_eq_zero, hne, hq, GPU.queueCapacity]
  · intro Tx q ts hne hq
    simp [GPU.ProcessTransactionsBatch, List.length_eq_zero, hne, hq, GPU.queueCapacity]

/-- C7 witness: full queues of 100 batches reject a singleton batch on
all three paths. -/
theorem gpu_queue_full_rejects_witness :
    GPU.ProcessHashesBatch (List.replicate 100 ⟨[[1]]⟩) [[1]] =
      ⟨some "hash processing queue full", List.replicate 100 ⟨[[1]]⟩, []⟩ ∧
    GPU.ProcessSignaturesBatch (List.replicate 100 ⟨[[1]], [[2]], [[3]]⟩)
      [[1]] [[2]] [[3]] =
      ⟨some "signature processing queue full",
        List.replicate 100 ⟨[[1]], [[2]], [[3]]⟩, []⟩ ∧
    GPU.ProcessTransactionsBatch (List.replicate 100 ⟨[1]⟩) [1] =
      ⟨some "transaction processing queue full",
        List.replicate 100 (⟨[1]⟩ : GPU.TxBatch Nat), []⟩ :=
  ⟨gpu_queue_full_rejects.1 (List.replicate 100 ⟨[[1]]⟩) [[1]]
      (by simp) (List.length_replicate 100 _),
    gpu_queue_full_rejects.2.1 (List.replicate 100 ⟨[[1]], [[2]], [[3]]⟩)
      [[1]] [[2]] [[3]] (by simp) (List.length_replicate 100 _),
    gpu_queue_full_rejects.2.2 Nat (List.replicate 100 ⟨[1]⟩) [1]
      (by simp) (List.length_replicate 100 _)⟩

/-- C8: an empty batch submitted to any of the three submission
functions immediately invokes the callback exactly once with empty
results and nil error, enqueues nothing, and returns nil. -/
theorem gpu_empty_batch_immediate_callback :
    (∀ (q : List GPU.HashBatch),
      GPU.ProcessHashesBatch q [] = ⟨none, q, [([], none)]⟩) ∧
    (∀ (q : List GPU.SigBatch) (ms ks : List (List Nat)),
      GPU.ProcessSignaturesBatch q [] ms ks = ⟨none, q, [([], none)]⟩) ∧
    (∀ (Tx : Type) (q : List (GPU.TxBatch Tx)),
      GPU.ProcessTransactionsBatch q ([] : List Tx) =
        ⟨none, q, [([], none)]⟩) := by
  refine ⟨?_, ?_, ?_⟩
  · intro q
    simp [GPU.ProcessHashesBatch]
  · intro q ms ks
    simp [GPU.ProcessSignaturesBatch]
  · intro Tx q
    simp [GPU.ProcessTransactionsBatch]

/-- C6: a non-empty hash batch submitted with room in the queue is
enqueued without firing the callback, and the worker processing it with
`gpu_type = None`, on the CPU path, fires the callback exactly once with
one digest per input item in input order, each digest being the
keccak-256 of that item's bytes (items within the 256-byte slot width). -/
theorem gpu_cpu_hash_fallback (keccak : List Nat → List Nat)
    (gpuProcess :
      GPU.HashBatch → List (List Nat) × List (List (List Nat) × Option String))
    (q : List GPU.HashBatch) (hashes : List (List Nat))
    (hne : hashes ≠ []) (hq : q.length < 100)
    (hkec : ∀ x, (keccak x).length = 32)
    (hslot : ∀ x ∈ hashes, x.length ≤ 256) :
    GPU.ProcessHashesBatch q hashes = ⟨none, q ++ [⟨hashes⟩], []⟩ ∧
    (GPU.hashWorkerProcess .GPUTypeNone keccak gpuProcess ⟨hashes⟩).2 =
      [(hashes.map keccak, none)] ∧
    (GPU.hashWorkerProcess .GPUTypeNone keccak gpuProcess ⟨hashes⟩).1 =
      hashes.map keccak ∧
    (hashes.map keccak).length = hashes.length ∧
    (∀ (i : Nat), (hashes.map keccak)[i]? = hashes[i]?.map keccak) ∧
    (∀ r ∈ hashes.map keccak, r.length = 32) := by
  refine ⟨?_, rfl, rfl, List.length_map _ _, ?_, ?_⟩
  · simp [GPU.ProcessHashesBatch, List.length_eq_zero, hne, hq,
      GPU.queueCapacity]
  · intro i
    simp
  · intro r hr
    rcases List.mem_map.mp hr with ⟨x, _, rfl⟩
    exact hkec x

/-- C6 witness: a singleton batch hashed on the CPU path with a constant
32-byte digest function. -/
theorem gpu_cpu_hash_fallback_witness :
    GPU.ProcessHashesBatch [] [[1]] = ⟨none, [] ++ [⟨[[1]]⟩], []⟩ ∧
    (GPU.hashWorkerProcess .GPUTypeNone (fun _ => List.replicate 32 0)
      (fun _ => ([], [])) ⟨[[1]]⟩).2 =
      [([[1]].map (fun _ => List.replicate 32 0), none)] ∧
    (GPU.hashWorkerProcess .GPUTypeNone (fun _ => List.replicate 32 0)
      (fun _ => ([], [])) ⟨[[1]]⟩).1 =
      [[1]].map (fun _ => List.replicate 32 0) ∧
    ([[1]].map (fun _ => List.replicate 32 0)).length = [[1]].length ∧
    (∀ (i : Nat), ([[1]].map (fun _ => List.replicate 32 0))[i]? =
      [[1]][i]?.map (fun _ => List.replicate 32 0)) ∧
    (∀ r ∈ [[1]].map (fun _ => List.replicate 32 0), r.length = 32) :=
  gpu_cpu_hash_fallback (fun _ => List.replicate 32 0) (fun _ => ([], []))
    [] [[1]] (by simp) (by simp) (fun _ => List.length_replicate 32 0)
    (by simp)

namespace GPU

/-! Embedding of `go_process_transaction` (gpu_bridge_exports.go): the
64-byte result record is built by zero-filling, then writing the hash at
offset 0, the valid flag at 32, the error code at 33, the transaction
type at 34, and the little-endian gas, chain id and nonce at offsets 40,
48 and 56.  RLP decoding (`types.Transaction.UnmarshalBinary` plus field
accessors) is a parameter `decode`. -/

/-- Little-endian `uint64` encoding (`binary.LittleEndian.PutUint64`). -/
def le64 (x : Nat) : List Nat :=
  [x % 256, x / 256 % 256, x / 256 ^ 2 % 256, x / 256 ^ 3 % 256,
   x / 256 ^ 4 % 256, x / 256 ^ 5 % 256, x / 256 ^ 6 % 256,
   x / 256 ^ 7 % 256]

/-- Sequential byte store: `copy(out[off:off+len(bs)], bs)`. -/
def writeAt (l : List Nat) (off : Nat) : List Nat → List Nat
  | [] => l
  | b :: bs => writeAt (l.set off b) (off + 1) bs

/-- The transaction fields the bridge reads after a successful decode. -/
structure TxInfo where
  hash : List Nat
  txType : Nat
  gas : Nat
  chainId : Option Nat
  nonce : Nat
  deriving DecidableEq, Repr

/-- Bytes 48-55 of the record: the chain id when present and below
`2 ^ 64` (`chainID != nil && chainID.BitLen() <= 64`), zeros otherwise. -/
def chainIdBytes (c : Option Nat) : List Nat :=
  match c with
  | some cid => if cid < 2 ^ 64 then le64 cid else List.replicate 8 0
  | none => List.replicate 8 0

/-- `go_process_transaction`: zero-fill the 64-byte record, mark
malformed input with error code 1 at byte 33, and otherwise write hash,
valid flag, error code, type, gas, chain id and nonce.  The returned
`Int` is the C return value. -/
def goProcessTransaction (decode : List Nat → Option TxInfo)
    (input : List Nat) : Int × List Nat :=
  let out0 : List Nat := List.replicate 64 0
  if input.length = 0 then (0, out0.set 33 1)
  else
    match decode input with
    | none => (0, out0.set 33 1)
    | some tx =>
      let o1 := writeAt out0 0 (tx.hash.take 32)
      let o2 := ((o1.set 32 1).set 33 0).set 34 (tx.txType % 256)
      let o3 := writeAt o2 40 (le64 (tx.gas % 2 ^ 64))
      let o4 :=
        match tx.chainId with
        | some cid => if cid < 2 ^ 64 then writeAt o3 48 (le64 cid) else o3
        | none => o3
      let o5 := writeAt o4 56 (le64 (tx.nonce % 2 ^ 64))
      (0, o5)

/-- Setting an index at or past a prefix only touches the suffix. -/
lemma set_append_ge {a b : List Nat} {i v : Nat} (h : a.length ≤ i) :
    (a ++ b).set i v = a ++ b.set (i - a.length) v := by
  induction a generalizing i with
  | nil => simp
  | cons x xs ih =>
    cases i with
    | zero => simp at h
    | succ n =>
      have h' : xs.length ≤ n := by simpa using h
      rw [show n + 1 - (x :: xs).length = n - xs.length by simp]
      show x :: ((xs ++ b).set n v) = x :: (xs ++ b.set (n - xs.length) v)
      rw [ih h']

/-- Writing at or past a prefix only touches the suffix. -/
lemma writeAt_append_ge {a b bs : List Nat} {i : Nat} (h : a.length ≤ i) :
    writeAt (a ++ b) i bs = a ++ writeAt b (i - a.length) bs := by
  induction bs generalizing b i with
  | nil => rfl
  | cons c cs ih =>
    show writeAt ((a ++ b).set i c) (i + 1) cs = _
    rw [set_append_ge h, ih (le_trans h (Nat.le_succ i)),
      show i + 1 - a.length = (i - a.length) + 1 by omega]
    simp [writeAt]

/-- Writing at offset 0 replaces a prefix of the buffer. -/
lemma writeAt_zero_overwrites (l bs : List Nat) (h : bs.length ≤ l.length) :
    writeAt l 0 bs = bs ++ l.drop bs.length := by
  induction bs generalizing l with
  | nil => simp [writeAt]
  | cons c cs ih =>
    cases l with
    | nil => simp at h
    | cons x xs =>
      have h' : cs.length ≤ xs.length := by simpa using h
      show writeAt ([c] ++ xs) 1 cs = (c :: cs) ++ (x :: xs).drop (cs.length + 1)
      rw [writeAt_append_ge (show ([c] : List Nat).length ≤ 1 by simp)]
      simp [ih xs h']

/-- Record assembly when the chain id is written. -/
lemma record_build (hsh : List Nat) (hlen : hsh.length = 32)
    (t gv cv nv : Nat) :
    writeAt (writeAt (writeAt
        ((((writeAt (List.replicate 64 0) 0 hsh).set 32 1).set 33 0).set 34 t)
        40 (le64 gv)) 48 (le64 cv)) 56 (le64 nv) =
      hsh ++ [1, 0, t, 0, 0, 0, 0, 0] ++ le64 gv ++ le64 cv ++ le64 nv := by
  rw [writeAt_zero_overwrites (List.replicate 64 0) hsh (by simp [hlen]),
    set_append_ge (show hsh.length ≤ 32 by omega),
    set_append_ge (show hsh.length ≤ 33 by omega),
    set_append_ge (show hsh.length ≤ 34 by omega),
    writeAt_append_ge (show hsh.length ≤ 40 by omega),
    writeAt_append_ge (show hsh.length ≤ 48 by omega),
    writeAt_append_ge (show hsh.length ≤ 56 by omega), hlen]
  simp [writeAt, le64, List.replicate]

/-- Record assembly when the chain id is absent or oversized. -/
lemma record_build_nochain (hsh : List Nat) (hlen : hsh.length = 32)
    (t gv nv : Nat) :
    writeAt (writeAt
        ((((writeAt (List.replicate 64 0) 0 hsh).set 32 1).set 33 0).set 34 t)
        40 (le64 gv)) 56 (le64 nv) =
      hsh ++ [1, 0, t, 0, 0, 0, 0, 0] ++ le64 gv ++ List.replicate 8 0 ++
        le64 nv := by
  rw [writeAt_zero_overwrites (List.replicate 64 0) hsh (by simp [hlen]),
    set_append_ge (show hsh.length ≤ 32 by omega),
    set_append_ge (show hsh.length ≤ 33 by omega),
    set_append_ge (show hsh.length ≤ 34 by omega),
    writeAt_append_ge (show hsh.length ≤ 40 by omega),
    writeAt_append_ge (show hsh.length ≤ 56 by omega), hlen]
  simp [writeAt, le64, List.replicate]

end GPU

/-- Decode oracle returning a fixed type-2 (EIP-1559 style) transaction;
such transactions exist on any chain accepting typed envelopes. -/
def decodeTxType2 : List Nat → Option GPU.TxInfo :=
  fun _ => some ⟨List.replicate 32 170, 2, 21000, some 1337, 7⟩

/-- C3 counterexample: for a decoded type-2 transaction the record's
byte 34 holds the transaction type (2), so bytes 34-39 are not a
six-byte reserved (zero) region and no type byte follows the nonce
inside the 64-byte record. -/
theorem gpu_tx_record_c3_counterexample :
    (GPU.goProcessTransaction decodeTxType2 [1]).2.getD 34 0 = 2 ∧
    (2 : Nat) ≠ 0 := by decide

/-- C3 (amended): for every transaction decoded by the GPU bridge, the
64-byte record is hash in bytes 0-31, valid flag 1 at byte 32, error
code 0 at byte 33, the transaction type byte at 34, five reserved zero
bytes 35-39, gas as little-endian uint64 in 40-47, chain id in 48-55
(zeros when absent or wider than 64 bits), and nonce in 56-63. -/
theorem gpu_tx_record_layout (decode : List Nat → Option GPU.TxInfo)
    (input : List Nat) (tx : GPU.TxInfo) (hne : input.length ≠ 0)
    (hdec : decode input = some tx) (hlen : tx.hash.length = 32) :
    GPU.goProcessTransaction decode input =
      (0, tx.hash ++ [1, 0, tx.txType % 256, 0, 0, 0, 0, 0] ++
        GPU.le64 (tx.gas % 2 ^ 64) ++ GPU.chainIdBytes tx.chainId ++
        GPU.le64 (tx.nonce % 2 ^ 64)) := by
  have htake : tx.hash.take 32 = tx.hash := by
    rw [← hlen]
    exact List.take_length tx.hash
  simp only [GPU.goProcessTransaction, hdec, htake]
  rw [if_neg hne]
  rcases hcid : tx.chainId with _ | cid
  · simp only [hcid, GPU.chainIdBytes]
    exact congrArg (fun l => ((0 : Int), l))
      (GPU.record_build_nochain tx.hash hlen _ _ _)
  · simp only [hcid, GPU.chainIdBytes]
    by_cases hfit : cid < 2 ^ 64
    · simp only [if_pos hfit]
      exact congrArg (fun l => ((0 : Int), l))
        (GPU.record_build tx.hash hlen _ _ _ _)
    · simp only [if_neg hfit]
      exact congrArg (fun l => ((0 : Int), l))
        (GPU.record_build_nochain tx.hash hlen _ _ _)

/-- C3 witness: the layout theorem evaluated at the fixed type-2 decode
oracle. -/
theorem gpu_tx_record_layout_witness :
    GPU.goProcessTransaction decodeTxType2 [1] =
      (0, List.replicate 32 170 ++ [1, 0, 2 % 256, 0, 0, 0, 0, 0] ++
        GPU.le64 (21000 % 2 ^ 64) ++ GPU.chainIdBytes (some 1337) ++
        GPU.le64 (7 % 2 ^ 64)) :=
  gpu_tx_record_layout decodeTxType2 [1]
    ⟨List.replicate 32 170, 2, 21000, some 1337, 7⟩ (by decide) rfl
    (List.length_replicate 32 170)

namespace X402

/-! Modelled from the spec: the x402 payment engine (verify/settle and
the on-chain anti-replay registry) is not among the sources — only its
documentation and signing tool are — so this section follows spec §4.5
("Verification rules (ordered; first failure wins)" and "Settlement
rules") and §3 ("Anti-Replay Registry").  Signature recovery (EIP-191
over the canonical message, §6.3) is a parameter `recover`. -/

/-- Modelled from the spec: the ordered verification failure reasons of
§4.5. -/
inductive Reason where
  | UnsupportedScheme
  | UnsupportedNetwork
  | NotYetValid
  | Expired
  | InvalidSignature
  | InsufficientBalance
  | AmountMismatch
  | RecipientMismatch
  | NonceReused
  deriving DecidableEq, Repr

/-- Modelled from the spec: the payment-requirements fields consumed by
the verification rules (scheme, network, amount, recipient). -/
structure PaymentRequirements where
  scheme : String
  network : String
  maxAmountRequired : Nat
  payTo : Nat
  deriving DecidableEq, Repr

/-- Modelled from the spec: the payment-payload fields consumed by the
verification rules; the signature itself is folded into the `recover`
parameter. -/
structure PaymentPayload where
  fromAddr : Nat
  toAddr : Nat
  value : Nat
  validAfter : Nat
  validBefore : Nat
  nonce : Nat
  deriving DecidableEq, Repr

/-- Modelled from the spec: the consensus state the engine touches — the
durable anti-replay registry of `(from, nonce)` pairs and the account
balances. -/
structure X402State where
  registry : List (Nat × Nat)
  balances : Nat → Nat

/-- Modelled from the spec: `verify(requirements, payload)` applying the
ordered rules 1-7 of §4.5; `none` means valid. -/
def x402Verify (recover : PaymentPayload → Option Nat)
    (cfgNetwork : String) (req : PaymentRequirements) (p : PaymentPayload)
    (st : X402State) (now : Nat) : Option Reason :=
  if req.scheme ≠ "exact" then some .UnsupportedScheme
  else if req.network ≠ cfgNetwork then some .UnsupportedNetwork
  else if now < p.validAfter then some .NotYetValid
  else if p.validBefore < now then some .Expired
  else if recover p ≠ some p.fromAddr then some .InvalidSignature
  else if st.balances p.fromAddr < p.value then some .InsufficientBalance
  else if p.value ≠ req.maxAmountRequired then some .AmountMismatch
  else if p.toAddr ≠ req.payTo then some .RecipientMismatch
  else if (p.fromAddr, p.nonce) ∈ st.registry then some .NonceReused
  else none

/-- Outcome of a settlement: success flag and the state after it. -/
structure SettleOutcome where
  success : Bool
  state : X402State

/-- Modelled from the spec: `settle` re-runs verification and, on
success, atomically records `(from, nonce)` in the registry, debits
`from` and credits `payTo`; on failure it changes nothing. -/
def x402Settle (recover : PaymentPayload → Option Nat)
    (cfgNetwork : String) (req : PaymentRequirements) (p : PaymentPayload)
    (st : X402State) (now : Nat) : SettleOutcome :=
  match x402Verify recover cfgNetwork req p st now with
  | some _ => ⟨false, st⟩
  | none =>
    ⟨true,
      { registry := (p.fromAddr, p.nonce) :: st.registry,
        balances := fun a =>
          let deb : Nat → Nat := fun b =>
            if b = p.fromAddr then st.balances b - p.value
            else st.balances b
          if a = req.payTo then deb a + p.value else deb a }⟩

/-- Verification rules 1-6 (everything before the anti-replay rule). -/
def prechecksPass (recover : PaymentPayload → Option Nat)
    (cfgNetwork : String) (req : PaymentRequirements) (p : PaymentPayload)
    (st : X402State) (now : Nat) : Bool :=
  decide (req.scheme = "exact") && decide (req.network = cfgNetwork) &&
  decide (p.validAfter ≤ now) && decide (now ≤ p.validBefore) &&
  decide (recover p = some p.fromAddr) &&
  decide (p.value ≤ st.balances p.fromAddr) &&
  decide (p.value = req.maxAmountRequired) && decide (p.toAddr = req.payTo)

/-- A registered `(from, nonce)` pair makes verification fail. -/
lemma verify_ne_none_of_mem (recover : PaymentPayload → Option Nat)
    (cfgNetwork : String) (req : PaymentRequirements) (p : PaymentPayload)
    (st : X402State) (now : Nat)
    (hmem : (p.fromAddr, p.nonce) ∈ st.registry) :
    x402Verify recover cfgNetwork req p st now ≠ none := by
  intro h
  unfold x402Verify at h
  split_ifs at h

end X402

/-- C1: once an accepted settlement records a `(from, nonce)` pair in
the anti-replay registry, every later verify of a payload with that pair
fails — with `NonceReused` whenever rules 1-6 pass — and every later
settle of such a payload fails and leaves the state (hence every
balance) unchanged; moreover no settlement ever removes a recorded pair,
so the rejection persists over the whole chain lifetime. -/
theorem x402_antireplay (recover : X402.PaymentPayload → Option Nat)
    (cfgNetwork : String) (req : X402.PaymentRequirements)
    (p : X402.PaymentPayload) (st : X402.X402State) (now : Nat)
    (hsucc : (X402.x402Settle recover cfgNetwork req p st now).success =
      true) :
    ((p.fromAddr, p.nonce) ∈
      (X402.x402Settle recover cfgNetwork req p st now).state.registry) ∧
    (∀ (req2 : X402.PaymentRequirements) (p2 : X402.PaymentPayload)
        (st2 : X402.X402State) (now2 : Nat),
      (p2.fromAddr, p2.nonce) ∈ st2.registry →
      (X402.x402Verify recover cfgNetwork req2 p2 st2 now2).isSome =
        true ∧
      (X402.x402Settle recover cfgNetwork req2 p2 st2 now2).success =
        false ∧
      (X402.x402Settle recover cfgNetwork req2 p2 st2 now2).state = st2 ∧
      (X402.prechecksPass recover cfgNetwork req2 p2 st2 now2 = true →
        X402.x402Verify recover cfgNetwork req2 p2 st2 now2 =
          some .NonceReused)) ∧
    (∀ (pr : Nat × Nat) (req3 : X402.PaymentRequirements)
        (p3 : X402.PaymentPayload) (st3 : X402.X402State) (now3 : Nat),
      pr ∈ st3.registry →
      pr ∈ (X402.x402Settle recover cfgNetwork req3 p3 st3 now3).state.registry) := by
  refine ⟨?_, ?_, ?_⟩
  · cases hv : X402.x402Verify recover cfgNetwork req p st now with
    | some r => simp [X402.x402Settle, hv] at hsucc
    | none => simp [X402.x402Settle, hv]
  · intro req2 p2 st2 now2 hmem
    have hne := X402.verify_ne_none_of_mem recover cfgNetwork req2 p2
      st2 now2 hmem
    refine ⟨Option.ne_none_iff_isSome.mp hne, ?_, ?_, ?_⟩
    · cases hv2 : X402.x402Verify recover cfgNetwork req2 p2 st2 now2 with
      | some r => simp [X402.x402Settle, hv2]
      | none => exact absurd hv2 hne
    · cases hv2 : X402.x402Verify recover cfgNetwork req2 p2 st2 now2 with
      | some r => simp [X402.x402Settle, hv2]
      | none => exact absurd hv2 hne
    · intro hp
      simp only [X402.prechecksPass, Bool.and_eq_true,
        decide_eq_true_eq] at hp
      obtain ⟨⟨⟨⟨⟨⟨⟨hs, hn⟩, hva⟩, hvb⟩, hsig⟩, hbal⟩, hval⟩, hto⟩ := hp
      simp [X402.x402Verify, hs, hn, hsig, hval, hto, hmem,
        Nat.not_lt.mpr hva, Nat.not_lt.mpr hvb,
        Nat.not_lt.mpr (hval ▸ hbal)]
  · intro pr req3 p3 st3 now3 hmem3
    cases hv3 : X402.x402Verify recover cfgNetwork req3 p3 st3 now3 with
    | some r => simpa [X402.x402Settle, hv3] using hmem3
    | none =>
      simp only [X402.x402Settle, hv3]
      exact List.mem_cons_of_mem _ hmem3

/-- Recovery oracle for the C1 witness: every payload verifies as signed
by its own `from` address. -/
def recover0 : X402.PaymentPayload → Option Nat := fun p => some p.fromAddr

/-- Requirements for the C1 witness. -/
def req0 : X402.PaymentRequirements := ⟨"exact", "splendor", 1000, 2⟩

/-- Payload for the C1 witness. -/
def p0 : X402.PaymentPayload := ⟨1, 2, 1000, 0, 100, 5⟩

/-- Initial state for the C1 witness. -/
def st0 : X402.X402State := ⟨[], fun _ => 5000⟩

/-- State after the C1 witness settlement. -/
def st1 : X402.X402State :=
  (X402.x402Settle recover0 "splendor" req0 p0 st0 10).state

/-- C1 witness: a concrete settlement records its pair, and replaying
the payload against the resulting state fails with `NonceReused` and no
state change. -/
theorem x402_antireplay_witness :
    ((p0.fromAddr, p0.nonce) ∈
      (X402.x402Settle recover0 "splendor" req0 p0 st0 10).state.registry) ∧
    (X402.x402Settle recover0 "splendor" req0 p0 st1 11).success = false ∧
    (X402.x402Settle recover0 "splendor" req0 p0 st1 11).state = st1 ∧
    X402.x402Verify recover0 "splendor" req0 p0 st1 11 =
      some X402.Reason.NonceReused := by
  have h := x402_antireplay recover0 "splendor" req0 p0 st0 10 rfl
  have h2 := h.2.1 req0 p0 st1 11 h.1
  exact ⟨h.1, h2.2.1, h2.2.2.1, h2.2.2.2 rfl⟩

namespace Hybrid

/-! Modelled from the spec: the hybrid scheduler's
`calculateOptimalBatchSize` (miner/worker.go) is absent from the
sources — only its test is — so this section realises spec §4.3:
"batch size grows as current TPS approaches the target; growth must be
monotone non-decreasing for monotone non-decreasing TPS, and the second
derivative must be non-positive".  The description depends only on the
observed TPS and the throughput target (utilisation enters the separate
split-ratio policy), and is realised as the concave quadratic ramp from
`minBatch` at zero TPS to `maxBatch` at the target, in exact rational
arithmetic. -/

/-- Modelled from the spec: adaptive batch size as a concave quadratic
ramp toward the throughput target. -/
def calculateOptimalBatchSize (minBatch maxBatch target tps : ℚ) : ℚ :=
  minBatch + (maxBatch - minBatch) * (1 - ((target - tps) / target) ^ 2)

/-- Difference of two batch sizes in closed form. -/
lemma batch_diff (minB maxB target a b : ℚ) (ht : target ≠ 0) :
    calculateOptimalBatchSize minB maxB target b -
      calculateOptimalBatchSize minB maxB target a =
    (maxB - minB) * ((b - a) * (2 * target - a - b)) / target ^ 2 := by
  unfold calculateOptimalBatchSize
  field_simp
  ring

end Hybrid

/-- C9 counterexample: over an unequally spaced strictly increasing TPS
sequence below the target (10000, 10001, 90000 of 100000), the second
increment of the batch size exceeds the first, so "successive increments
are non-increasing" fails for arbitrary strictly increasing sequences —
it holds only for equally spaced ones. -/
theorem hybrid_batch_c9_counterexample :
    (10000 : ℚ) < 10001 ∧ (10001 : ℚ) < 90000 ∧ (90000 : ℚ) < 100000 ∧
    Hybrid.calculateOptimalBatchSize 1000 1000000 100000 10001 -
        Hybrid.calculateOptimalBatchSize 1000 1000000 100000 10000 <
      Hybrid.calculateOptimalBatchSize 1000 1000000 100000 90000 -
        Hybrid.calculateOptimalBatchSize 1000 1000000 100000 10001 := by
  refine ⟨by norm_num, by norm_num, by norm_num, ?_⟩
  norm_num [Hybrid.calculateOptimalBatchSize]

/-- C9 (amended): on every equally spaced strictly increasing TPS
triple below the throughput target, the modelled batch sizes are
strictly increasing and the successive increments strictly decrease
(growth slows as the target is approached); longer equally spaced
sequences follow by applying this to each consecutive triple. -/
theorem hybrid_batch_monotone_concave (minB maxB target t d : ℚ)
    (hmm : minB < maxB) (htpos : 0 < target) (hd : 0 < d) (ht0 : 0 ≤ t)
    (hlast : t + 2 * d < target) :
    Hybrid.calculateOptimalBatchSize minB maxB target t <
      Hybrid.calculateOptimalBatchSize minB maxB target (t + d) ∧
    Hybrid.calculateOptimalBatchSize minB maxB target (t + d) <
      Hybrid.calculateOptimalBatchSize minB maxB target (t + 2 * d) ∧
    Hybrid.calculateOptimalBatchSize minB maxB target (t + 2 * d) -
        Hybrid.calculateOptimalBatchSize minB maxB target (t + d) <
      Hybrid.calculateOptimalBatchSize minB maxB target (t + d) -
        Hybrid.calculateOptimalBatchSize minB maxB target t := by
  have ht : target ≠ 0 := ne_of_gt htpos
  have hT2 : (0 : ℚ) < target ^ 2 := by positivity
  refine ⟨?_, ?_, ?_⟩
  · rw [← sub_pos, Hybrid.batch_diff minB maxB target t (t + d) ht]
    apply div_pos ?_ hT2
    have h1 : (0 : ℚ) < maxB - minB := by linarith
    have h2 : (0 : ℚ) < t + d - t := by linarith
    have h3 : (0 : ℚ) < 2 * target - t - (t + d) := by linarith
    positivity
  · rw [← sub_pos, Hybrid.batch_diff minB maxB target (t + d) (t + 2 * d)
      ht]
    apply div_pos ?_ hT2
    have h1 : (0 : ℚ) < maxB - minB := by linarith
    have h2 : (0 : ℚ) < t + 2 * d - (t + d) := by linarith
    have h3 : (0 : ℚ) < 2 * target - (t + d) - (t + 2 * d) := by linarith
    positivity
  · rw [Hybrid.batch_diff minB maxB target (t + d) (t + 2 * d) ht,
      Hybrid.batch_diff minB maxB target t (t + d) ht,
      div_lt_div_iff_of_pos_right hT2]
    have h1 : (0 : ℚ) < maxB - minB := by linarith
    nlinarith [mul_pos h1 (mul_pos hd hd)]

/-- C9 witness: the amended statement at the test's sequence 60%, 75%,
90% of a 100000 TPS target. -/
theorem hybrid_batch_monotone_concave_witness :
    Hybrid.calculateOptimalBatchSize 1000 1000000 100000 60000 <
      Hybrid.calculateOptimalBatchSize 1000 1000000 100000 (60000 + 15000) ∧
    Hybrid.calculateOptimalBatchSize 1000 1000000 100000 (60000 + 15000) <
      Hybrid.calculateOptimalBatchSize 1000 1000000 100000
        (60000 + 2 * 15000) ∧
    Hybrid.calculateOptimalBatchSize 1000 1000000 100000
        (60000 + 2 * 15000) -
        Hybrid.calculateOptimalBatchSize 1000 1000000 100000
          (60000 + 15000) <
      Hybrid.calculateOptimalBatchSize 1000 1000000 100000
          (60000 + 15000) -
        Hybrid.calculateOptimalBatchSize 1000 1000000 100000 60000 :=
  hybrid_batch_monotone_concave 1000 1000000 100000 60000 15000
    (by norm_num) (by norm_num) (by norm_num) (by norm_num) (by norm_num)
